import Mathlib

/-!
Shallow embedding of the ghostwriter feedback system
(`feedback_system.py`, `api.py`) and verification of its specification.

External effects (file I/O, the FAISS similarity search, the embedding
client and the generation client) are modelled as explicit parameters:
an `Except String α` value stands for a Python call that either returns
a result or raises, an `Option` stands for a possibly-missing file or
index, and functions passed in stand for the external services.
All pure string manipulation is translated directly from the source.
-/

namespace Ghostwriter

/-- `FeedbackEntry` dataclass from `feedback_system.py`. -/
structure FeedbackEntry where
  timestamp : String
  profile_name : String
  original_context : String
  original_instruction : String
  generated_post : String
  feedback_type : String
  feedback_text : String
  refinement_instruction : String := ""
  approved_version : String := ""
deriving Repr, DecidableEq

/-- The metadata dict attached to a feedback document in the FAISS store
(`_update_feedback_vectors` stores `profile_name`, `feedback_type`,
`timestamp`); `metadata.get` returns `none` for an absent key. -/
structure DocMeta where
  profile_name : Option String
  feedback_type : Option String
  timestamp : Option String
deriving Repr, DecidableEq

/-- A LangChain `Document` as returned by `similarity_search`. -/
structure Doc where
  page_content : String
  metadata : DocMeta
deriving Repr, DecidableEq

/-- The dict `{'content': ..., 'metadata': ...}` returned by
`FeedbackMemoryStore.get_relevant_feedback`. -/
structure RetRecord where
  content : String
  metadata : DocMeta
deriving Repr, DecidableEq

/-- Python's default whitespace set for `str.strip()`. -/
def isPySpace (c : Char) : Bool :=
  c = ' ' || c = '\t' || c = '\n' || c = '\r' || c = '\x0b' || c = '\x0c'

/-- Python `str.strip()`: drop leading and trailing whitespace.
Implemented charwise by structural recursion so that proofs can
evaluate it. -/
def pyStrip (s : String) : String :=
  String.mk (((s.data.dropWhile isPySpace).reverse.dropWhile
    isPySpace).reverse)

/-- Is `pre` a prefix of `s` (charwise)? -/
def isPrefixList (pre s : List Char) : Bool :=
  match pre, s with
  | [], _ => true
  | _ :: _, [] => false
  | p :: ps, c :: cs => p == c && isPrefixList ps cs

/-- Does `sep` occur in `s` (charwise)? -/
def containsList (sep : List Char) : List Char → Bool
  | [] => isPrefixList sep []
  | c :: cs => isPrefixList sep (c :: cs) || containsList sep cs

/-- Python substring test `pat in s`. -/
def containsSub (s pat : String) : Bool :=
  containsList pat.data s.data

/-- Python `s.split(sep)` for a non-empty separator, scanning left to
right; `fuel` (instantiated to the length of `s`) makes the recursion
structural so that the kernel can evaluate it. -/
def splitList (sep : List Char) : Nat → List Char → List Char →
    List (List Char)
  | 0, s, acc => [acc.reverse ++ s]
  | fuel + 1, s, acc =>
    match s with
    | [] => [acc.reverse]
    | c :: cs =>
      if isPrefixList sep (c :: cs) then
        acc.reverse :: splitList sep fuel (List.drop sep.length (c :: cs)) []
      else splitList sep fuel cs (c :: acc)

/-- Python `s.split(sep)`. -/
def pySplit (s sep : String) : List String :=
  (splitList sep.data s.data.length s.data []).map String.mk

/-- Replace every occurrence of `old` in `s` (charwise with fuel, like
`splitList`). -/
def replaceList (old new : List Char) : Nat → List Char → List Char
  | 0, s => s
  | fuel + 1, s =>
    match s with
    | [] => []
    | c :: cs =>
      if isPrefixList old (c :: cs) then
        new ++ replaceList old new fuel (List.drop old.length (c :: cs))
      else c :: replaceList old new fuel cs

/-- Python `s.replace(old, new)` — also the effect of substituting one
`PromptTemplate` input variable. -/
def pyReplace (s old new : String) : String :=
  String.mk (replaceList old.data new.data s.data.length s.data)

/-- Python `s.startswith(pre)`. -/
def pyStartsWith (s pre : String) : Bool :=
  isPrefixList pre.data s.data

/-- Python `sep.join(parts)`. -/
def joinSep (sep : String) : List String → String
  | [] => ""
  | [x] => x
  | x :: y :: rest => x ++ sep ++ joinSep sep (y :: rest)

/-- Stable insert for a descending-by-key order: the new pair goes in
front of the first element whose key is strictly smaller, hence after
all earlier elements with an equal key (Python `list.sort` stability). -/
def insertDesc {α : Type} (p : α × String) : List (α × String) → List (α × String)
  | [] => [p]
  | q :: rest => if q.2 < p.2 then p :: q :: rest else q :: insertDesc p rest

/-- Stable sort by key, descending — the model of Python
`list.sort(key=lambda x: x[1], reverse=True)`. -/
def sortDesc {α : Type} (l : List (α × String)) : List (α × String) :=
  l.foldl (fun acc p => insertDesc p acc) []

/-- The timestamp key used for sorting in `get_relevant_feedback`:
`doc.metadata.get('timestamp', '1970-01-01T00:00:00')`. -/
def tsOf (d : Doc) : String :=
  d.metadata.timestamp.getD "1970-01-01T00:00:00"

/-- A profile's similarity search: query text and candidate count to
either a document list or a raised exception. -/
def SearchFn : Type := String → Nat → Except String (List Doc)

/-- `FeedbackMemoryStore.get_relevant_feedback`.  `stores` models the
`self.feedback_stores` dict (`none` = profile has no vector index);
a raised exception anywhere in the `try` block yields `[]`.
Python truthiness: the kind filter runs only for a non-`None`,
non-empty `feedback_type`. -/
def get_relevant_feedback (stores : String → Option SearchFn)
    (profile_name context : String) (feedback_type : Option String)
    (k : Nat) : List RetRecord :=
  match stores profile_name with
  | none => []
  | some search =>
    match search context (k * 2) with
    | .error _ => []
    | .ok docs0 =>
      let docs : List Doc := match feedback_type with
        | some ft =>
          if ft ≠ "" then
            docs0.filter (fun d => d.metadata.feedback_type == some ft)
          else docs0
        | none => docs0
      let docs_with_timestamps := docs.map (fun d => (d, tsOf d))
      let sorted := sortDesc docs_with_timestamps
      let final_docs := (sorted.take k).map Prod.fst
      final_docs.map (fun d => { content := d.page_content, metadata := d.metadata })

/-- The kind-filtering step of `get_relevant_feedback`, by itself: with
Python truthiness, no filtering happens for `None` or an empty-string
kind. -/
def kindFilter (feedback_type : Option String) (docs : List Doc) :
    List Doc :=
  match feedback_type with
  | some ft =>
    if ft ≠ "" then
      docs.filter (fun d => d.metadata.feedback_type == some ft)
    else docs
  | none => docs

/-- One element of the `recent_patterns` list in a feedback summary. -/
structure RecentPattern where
  feedback_text : String
  feedback_type : String
  timestamp : String
deriving Repr, DecidableEq

/-- The dict returned by
`FeedbackMemoryStore.get_profile_feedback_summary`. -/
structure FeedbackSummary where
  total_feedback : Nat
  positive : Nat
  negative : Nat
  refinements : Nat
  recent_patterns : List RecentPattern
deriving Repr, DecidableEq

/-- The all-zero summary returned both for a missing log file and on a
raised exception. -/
def emptySummary : FeedbackSummary :=
  { total_feedback := 0, positive := 0, negative := 0, refinements := 0
    recent_patterns := [] }

/-- `FeedbackMemoryStore.get_profile_feedback_summary`.  `file` models the
profile's feedback log file: `none` when no such file exists, otherwise the
outcome of reading and parsing it (`Except.error` = raised exception, which
the method catches, returning the zero summary). -/
def get_profile_feedback_summary
    (file : Option (Except String (List FeedbackEntry))) : FeedbackSummary :=
  match file with
  | none => emptySummary
  | some (.error _) => emptySummary
  | some (.ok feedback_list) =>
    let recent_feedback :=
      ((sortDesc (feedback_list.map (fun f => (f, f.timestamp)))).take 5).map
        Prod.fst
    { total_feedback := feedback_list.length
      positive := (feedback_list.filter
        (fun f => f.feedback_type == "positive")).length
      negative := (feedback_list.filter
        (fun f => f.feedback_type == "negative")).length
      refinements := (feedback_list.filter
        (fun f => f.feedback_type == "refinement")).length
      recent_patterns := recent_feedback.map
        (fun f => { feedback_text := f.feedback_text
                    feedback_type := f.feedback_type
                    timestamp := f.timestamp }) }

/-- The durable-log effect of `FeedbackMemoryStore.store_feedback`: the new
entry is appended to the parsed log list, which is then rewritten. -/
def store_feedback_log (feedback_list : List FeedbackEntry)
    (feedback : FeedbackEntry) : List FeedbackEntry :=
  feedback_list ++ [feedback]

/-- `FeedbackMemoryStore._update_feedback_vectors`: `indexUpdate` models the
embedding / index-insert / index-save step.  Any exception raised there is
caught inside this method (only printed to console), so the method itself
never raises. -/
def update_feedback_vectors (indexUpdate : Except String Unit) :
    Except String Unit :=
  match indexUpdate with
  | .ok _ => .ok ()
  | .error _ => .ok ()

/-- `FeedbackMemoryStore.store_feedback`: `logWrite` models the
read-append-rewrite of the JSON log, `indexUpdate` the vector-store update
step.  The `try` block returns `True` unless an exception escapes it, in
which case the `except` branch returns `False`. -/
def store_feedback (logWrite indexUpdate : Except String Unit) : Bool :=
  match logWrite with
  | .error _ => false
  | .ok _ =>
    match update_feedback_vectors indexUpdate with
    | .error _ => false
    | .ok _ => true

/-- The six explicit separator strings recognized by
`format_samples_with_markers`. -/
def explicit_separators : List String :=
  ["=== NEW POST ===", "--- NEW SAMPLE ---", "=== SEPARATE POST ===",
   "--- SEPARATE POST ---", "=== NEW ===", "--- NEW ---"]

/-- The `for separator in explicit_separators:` loop of
`format_samples_with_markers`: the first separator occurring in `content`
whose split yields more than one non-empty stripped part wins (`break`);
otherwise the loop falls through (`none`). -/
def sepSplit : List String → String → Option (List String)
  | [], _ => none
  | sep :: rest, content =>
    if containsSub content sep then
      let parts := ((pySplit content sep).map pyStrip).filter
        (fun p => p ≠ "")
      if parts.length > 1 then some parts else sepSplit rest content
    else sepSplit rest content

/-- One `--- SAMPLE i START --- ... --- SAMPLE i END ---` block
(`i` is 1-based). -/
def wrapSample (i : Nat) (sample : String) : String :=
  "--- SAMPLE " ++ toString i ++ " START ---\n" ++ sample ++
    "\n--- SAMPLE " ++ toString i ++ " END ---"

/-- `"\n\n".join` of the enumerated, marker-wrapped samples
(`enumerate(sample_list, 1)`). -/
def wrapSamples (sample_list : List String) : String :=
  joinSep "\n\n"
    (sample_list.enum.map (fun p => wrapSample (p.1 + 1) p.2))

/-- The candidate parts of the five-consecutive-newlines fallback split:
stripped, with empty parts dropped. -/
def gapParts (content : String) : List String :=
  ((pySplit content "\n\n\n\n\n").map pyStrip).filter (fun p => p ≠ "")

/-- The `sample_list` computed by `format_samples_with_markers`: the
explicit-separator split when one applies, else the five-newline gap
split when every part is substantial (200+ chars), else the whole
stripped content as a single sample. -/
def sampleListOf (samples : String) : List String :=
  let content := pyStrip samples
  match sepSplit explicit_separators content with
  | some parts => parts
  | none =>
    let very_large_gaps := gapParts content
    if very_large_gaps.length > 1 then
      let validated := very_large_gaps.filter (fun p => 200 ≤ p.length)
      if validated.length == very_large_gaps.length then validated
      else [content]
    else [content]

/-- `format_samples_with_markers` from `api.py`. -/
def format_samples_with_markers (samples : String) : String :=
  if (sampleListOf samples).isEmpty then pyStrip samples
  else wrapSamples (sampleListOf samples)

/-- One row of the `GET /profiles` response built by `list_profiles`. -/
structure ProfileInfo where
  name : String
  sampleCount : Nat
  feedbackCount : Nat
  learningScore : Int
deriving Repr, DecidableEq

/-- Sample counting inside `list_profiles`: lines whose stripped form
starts with `--- SAMPLE` and which contain `START` count as one sample
each; if there are none, the non-empty double-newline blocks of the
stripped content are counted instead. -/
def count_samples (content : String) : Nat :=
  let marker_lines := (pySplit content "\n").filter
    (fun line => pyStartsWith (pyStrip line) "--- SAMPLE"
      && containsSub line "START")
  if marker_lines.isEmpty then
    ((pySplit (pyStrip content) "\n\n").filter (fun s => pyStrip s ≠ "")).length
  else marker_lines.length

/-- `list_profiles` from `api.py`.  `profiles` models
`["default"] + <profile dir .txt files>`, `readFile` models the
existence check plus `open().read()` (`none` = missing file, skipped by
`continue`), and `getSummary` the feedback store's
`get_profile_feedback_summary`. -/
def list_profiles (profiles : List String) (readFile : String → Option String)
    (getSummary : String → FeedbackSummary) : List ProfileInfo :=
  profiles.filterMap (fun p =>
    (readFile p).map (fun content =>
      { name := p
        sampleCount := count_samples content
        feedbackCount := (getSummary p).total_feedback
        learningScore := ((getSummary p).positive : Int)
          - ((getSummary p).negative : Int) }))

/-- The refinement prompt of `FeedbackEnhancedGenerator.refine_post`, with
its three input variables substituted (the effect of `chain.invoke`). -/
def renderRefinePrompt (original_post feedback context : String) : String :=
  pyReplace (pyReplace (pyReplace
    "You are helping to refine a LinkedIn post based on user feedback.\n\nOriginal Post:\n{original_post}\n\nUser Feedback:\n{feedback}\n\nContext: {context}\n\nCRITICAL INSTRUCTIONS:\n- Revise the post incorporating the feedback\n- Write ONLY the revised LinkedIn post content\n- Do NOT include explanations or meta-commentary\n- Do NOT mention the revision process\n- Write as if you ARE the user posting directly\n\nRevised Post:"
    "{original_post}" original_post) "{feedback}" feedback)
    "{context}" context

/-- `FeedbackEnhancedGenerator.refine_post`: `llm` models the generation
client applied to the rendered refinement prompt; a raised exception is
caught and the original post is returned unchanged. -/
def refine_post (llm : String → Except String String)
    (profile_name original_post feedback_text context : String) : String :=
  match llm (renderRefinePrompt original_post feedback_text context) with
  | .ok result => pyStrip result
  | .error _ => original_post

/-- `POST /refine` (`api_refine_post`): wraps `refine_post` in try/except;
since `refine_post` catches the generation error itself, the endpoint
always answers `{"result": ...}` with HTTP success. -/
def api_refine_post (llm : String → Except String String)
    (profile_name original_post feedback_text context : String) :
    Except String String :=
  .ok (refine_post llm profile_name original_post feedback_text context)

/-- Extraction of the feedback text from a stored entry's flattened
content: the first line containing `Feedback:` is split on that label and
the trailing part stripped; when no line has the label, the fallback
placeholder `Unknown feedback` is substituted. -/
def extractFeedbackText (lines : List String) : String :=
  match lines.find? (fun line => containsSub line "Feedback:") with
  | some line => pyStrip ((pySplit line "Feedback:").getD 1 "")
  | none => "Unknown feedback"

/-- Extraction of the refinement text: the first line containing
`Refinement:` whose stripped trailing part is non-empty. -/
def extractRefinementText (lines : List String) : Option String :=
  match lines.find? (fun line => containsSub line "Refinement:" &&
      pyStrip ((pySplit line "Refinement:").getD 1 "") != "") with
  | some line => some (pyStrip ((pySplit line "Refinement:").getD 1 ""))
  | none => none

/-- The numbered item lines of a positive/negative feedback section. -/
def renderFeedbackItems (items : List RetRecord) : String :=
  String.join (items.enum.map (fun p =>
    "   " ++ toString (p.1 + 1) ++ ". "
      ++ extractFeedbackText (pySplit p.2.content "\n") ++ "\n"))

/-- The numbered item lines of the refinement section: feedback text plus
the refinement text when one was extracted. -/
def renderRefinementItems (items : List RetRecord) : String :=
  String.join (items.enum.map (fun p =>
    let lines := pySplit p.2.content "\n"
    let feedback_text := extractFeedbackText lines
    match extractRefinementText lines with
    | some refinement_text =>
      "   " ++ toString (p.1 + 1) ++ ". " ++ feedback_text ++ " → "
        ++ refinement_text ++ "\n"
    | none => "   " ++ toString (p.1 + 1) ++ ". " ++ feedback_text ++ "\n"))

/-- The `feedback_context` block of `create_feedback_aware_prompt`: empty
when all three retrievals are empty, otherwise the header, the non-empty
sections in fixed order positive, negative, refinement, and the closing
directive. -/
def feedbackContextOf
    (positive_feedback negative_feedback refinement_feedback :
      List RetRecord) : String :=
  if positive_feedback.isEmpty && negative_feedback.isEmpty
      && refinement_feedback.isEmpty then ""
  else
    "\nBased on previous user feedback for similar content:\n"
    ++ (if positive_feedback.isEmpty then ""
        else "\n✅ POSITIVE PATTERNS TO FOLLOW:\n"
          ++ renderFeedbackItems positive_feedback)
    ++ (if negative_feedback.isEmpty then ""
        else "\n❌ NEGATIVE PATTERNS TO AVOID:\n"
          ++ renderFeedbackItems negative_feedback)
    ++ (if refinement_feedback.isEmpty then ""
        else "\n🔄 REFINEMENT SUGGESTIONS TO CONSIDER:\n"
          ++ renderRefinementItems refinement_feedback)
    ++ "\nIMPORTANT: Use the positive patterns, avoid the negative patterns, and consider the refinement suggestions when generating the post.\n"

/-- The store's retrieval method as seen by the prompt assembler:
profile, context, kind filter and `k` to a record list. -/
def GetRelevantFn : Type :=
  String → String → Option String → Nat → List RetRecord

/-- The fixed part of the feedback-aware template before the interpolated
feedback block. -/
def feedbackTemplateBefore : String :=
  "You are an AI assistant helping to write LinkedIn posts in the user\x27s authentic voice and style.\n\nHere are some examples of the user\x27s writing style:\n\n{style_examples}\n"

/-- The fixed part of the feedback-aware template after the interpolated
feedback block. -/
def feedbackTemplateAfter : String :=
  "\nNow create a LinkedIn post about the following topic:\n\nContext: {context}\n\nAdditional Instructions: {custom_instruction}\n\nCRITICAL INSTRUCTIONS:\n- Write ONLY the LinkedIn post content\n- Do NOT include any explanations, analysis, or meta-commentary\n- Do NOT mention feedback patterns or voice analysis\n- Do NOT start with phrases like \"Here\x27s a LinkedIn post that...\"\n- Write as if you ARE the user posting directly\n\nLinkedIn Post:"

/-- `FeedbackEnhancedGenerator.create_feedback_aware_prompt`: three
independent retrievals for the same context, one per kind, `k = 2` each,
assembled into the template (the `instruction` argument is accepted but,
as in the source, not interpolated — the template keeps its
`custom_instruction` placeholder for `chain.invoke`). -/
def create_feedback_aware_prompt (getRelevant : GetRelevantFn)
    (profile_name context instruction style_examples : String) : String :=
  let positive_feedback := getRelevant profile_name context (some "positive") 2
  let negative_feedback := getRelevant profile_name context (some "negative") 2
  let refinement_feedback :=
    getRelevant profile_name context (some "refinement") 2
  feedbackTemplateBefore
    ++ feedbackContextOf positive_feedback negative_feedback
        refinement_feedback
    ++ feedbackTemplateAfter

/-- `build_prompt` from `api.py`: the plain template with no feedback
section. -/
def plainTemplate : String :=
  "Study these writing samples carefully:\n\n{style_examples}\n\nWrite a LinkedIn post about: {context}\n\nInstructions: {custom_instruction}\n\nCRITICAL: \n- Copy the EXACT writing style from the samples\n- Match the tone, structure, and language patterns\n- NO explanations, NO meta-commentary\n- Write ONLY the post content\n- Follow the samples\x27 style strictly - make NO assumptions\n\nLinkedIn Post:"

/-- `PromptTemplate` + `chain.invoke`: substitute the three input
variables into a template. -/
def renderPrompt (template style_examples context custom_instruction :
    String) : String :=
  pyReplace (pyReplace (pyReplace template
    "{style_examples}" style_examples)
    "{context}" context) "{custom_instruction}" custom_instruction

/-- `"\n\n".join(f"Example {i+1}:\n{ex}" ...)` shared by both generation
paths. -/
def formatExamples (examples : List String) : String :=
  joinSep "\n\n" (examples.enum.map
    (fun p => "Example " ++ toString (p.1 + 1) ++ ":\n" ++ p.2))

/-- `generate_post` from `api.py`.  `searchDocs` models
`get_cached_vectorstore(profile)` followed by
`similarity_search(context, k=2)` — a raised exception or the page
contents of the retrieved documents; `llm` models the generation
client. -/
def generate_post (searchDocs : Except String (List String))
    (llm : String → Except String String) (context instruction : String) :
    Except String String :=
  match searchDocs with
  | .error e => .error e
  | .ok docs =>
    let examples := (docs.map pyStrip).filter (fun s => s ≠ "")
    if examples.isEmpty then .error "No style examples found for generation"
    else
      match llm (renderPrompt plainTemplate (formatExamples examples) context
          (if instruction = "" then "Write naturally." else instruction)) with
      | .error e => .error e
      | .ok result => .ok (pyStrip result)

/-- `FeedbackEnhancedGenerator.generate_with_feedback`: builds the
feedback-aware prompt and invokes the generation client; any raised
exception is caught and `None` is returned. -/
def generate_with_feedback (getRelevant : GetRelevantFn)
    (llm : String → Except String String)
    (profile_name context instruction style_examples : String) :
    Option String :=
  let prompt_template := create_feedback_aware_prompt getRelevant
    profile_name context instruction style_examples
  match llm (renderPrompt prompt_template style_examples context
      (if instruction = "" then "Write in your authentic style."
       else instruction)) with
  | .ok result => some (pyStrip result)
  | .error _ => none

/-- The `try` block of `generate_post_with_feedback`: style retrieval,
example check, feedback-aware generation, and the
`if not result: raise ValueError("Failed to generate post")` guard that
also rejects an empty generated string. -/
def feedbackAttempt (searchDocs : Except String (List String))
    (getRelevant : GetRelevantFn) (fbLLM : String → Except String String)
    (profile context instruction : String) : Except String String :=
  match searchDocs with
  | .error e => .error e
  | .ok docs =>
    let examples := (docs.map pyStrip).filter (fun s => s ≠ "")
    if examples.isEmpty then .error "No style examples found for generation"
    else
      match generate_with_feedback getRelevant fbLLM profile context
          instruction (formatExamples examples) with
      | some result =>
        if result = "" then .error "Failed to generate post" else .ok result
      | none => .error "Failed to generate post"

/-- `generate_post_with_feedback` from `api.py`: on any failure of the
feedback-aware attempt, fall back to the basic `generate_post` with the
same search results, context and instruction. -/
def generate_post_with_feedback (searchDocs : Except String (List String))
    (getRelevant : GetRelevantFn) (fbLLM basicLLM : String → Except String String)
    (profile context instruction : String) : Except String String :=
  match feedbackAttempt searchDocs getRelevant fbLLM profile context
      instruction with
  | .ok result => .ok result
  | .error _ => generate_post searchDocs basicLLM context instruction

/-- `POST /generate` (`api_generate`): try the feedback-enhanced path; if
it raises, retry basic generation; if that also raises, answer HTTP 500
with a combined detail naming both errors. -/
def api_generate (searchDocs : Except String (List String))
    (getRelevant : GetRelevantFn) (fbLLM basicLLM : String → Except String String)
    (profile context instruction : String) : Except String String :=
  match generate_post_with_feedback searchDocs getRelevant fbLLM basicLLM
      profile context instruction with
  | .ok post => .ok post
  | .error feedback_error =>
    match generate_post searchDocs basicLLM context instruction with
    | .ok post => .ok post
    | .error basic_error =>
      .error ("Generation failed - Feedback error: " ++ feedback_error
        ++ ", Basic error: " ++ basic_error)

/-- The descending-key relation `sortDesc` establishes: an earlier
element's key is never smaller than a later element's key. -/
def keyGE {α : Type} (a b : α × String) : Prop := ¬ (a.2 < b.2)

theorem mem_insertDesc {α : Type} (p x : α × String) (l : List (α × String)) :
    x ∈ insertDesc p l ↔ x = p ∨ x ∈ l := by
  induction l with
  | nil => simp [insertDesc]
  | cons q rest ih =>
    by_cases h : q.2 < p.2
    · simp [insertDesc, h]
    · simp only [insertDesc, if_neg h, List.mem_cons, ih]
      tauto

theorem pairwise_insertDesc {α : Type} (p : α × String) (l : List (α × String))
    (h : l.Pairwise keyGE) : (insertDesc p l).Pairwise keyGE := by
  induction l with
  | nil => simp [insertDesc, keyGE]
  | cons q rest ih =>
    rcases List.pairwise_cons.mp h with ⟨hq, hrest⟩
    by_cases hlt : q.2 < p.2
    · simp only [insertDesc, if_pos hlt]
      refine List.pairwise_cons.mpr ⟨?_, h⟩
      intro x hx
      rcases List.mem_cons.mp hx with rfl | hx
      · exact fun hc => absurd hc (asymm hlt)
      · have hqx : ¬ (q.2 < x.2) := hq x hx
        have : x.2 < p.2 := lt_of_le_of_lt (not_lt.mp hqx) hlt
        exact fun hc => absurd hc (asymm this)
    · simp only [insertDesc, if_neg hlt]
      refine List.pairwise_cons.mpr ⟨?_, ih hrest⟩
      intro x hx
      rcases (mem_insertDesc p x rest).mp hx with rfl | hx
      · exact hlt
      · exact hq x hx

theorem pairwise_sortDesc_from {α : Type} (l acc : List (α × String))
    (h : acc.Pairwise keyGE) :
    (l.foldl (fun acc p => insertDesc p acc) acc).Pairwise keyGE := by
  induction l generalizing acc with
  | nil => exact h
  | cons p rest ih => exact ih _ (pairwise_insertDesc p acc h)

theorem pairwise_sortDesc {α : Type} (l : List (α × String)) :
    (sortDesc l).Pairwise keyGE :=
  pairwise_sortDesc_from l [] (by simp)

theorem mem_sortDesc_from {α : Type} (x : α × String) (l acc : List (α × String)) :
    x ∈ l.foldl (fun acc p => insertDesc p acc) acc ↔ x ∈ l ∨ x ∈ acc := by
  induction l generalizing acc with
  | nil => simp
  | cons p rest ih =>
    simp only [List.foldl_cons, ih, mem_insertDesc, List.mem_cons]
    tauto

theorem mem_sortDesc {α : Type} (x : α × String) (l : List (α × String)) :
    x ∈ sortDesc l ↔ x ∈ l := by
  simp [sortDesc, mem_sortDesc_from]

/-- Characterization of `get_relevant_feedback` on the success path, for
every optional kind filter: filter the `2k` candidates by kind when a
non-empty kind is given, pair with the timestamp key, stable-sort
descending, truncate to `k`, project to dicts. -/
theorem get_relevant_feedback_eq (stores : String → Option SearchFn)
    (search : SearchFn) (profile_name context : String)
    (feedback_type : Option String) (k : Nat) (docs : List Doc)
    (hstore : stores profile_name = some search)
    (hsearch : search context (k * 2) = Except.ok docs) :
    get_relevant_feedback stores profile_name context feedback_type k =
      (((sortDesc ((kindFilter feedback_type docs).map
          (fun d => (d, tsOf d)))).take k).map Prod.fst).map
        (fun d => { content := d.page_content, metadata := d.metadata }) := by
  unfold get_relevant_feedback
  rw [hstore]
  dsimp only
  rw [hsearch]
  rfl

theorem mem_kindFilter_subset (feedback_type : Option String)
    (docs : List Doc) (d : Doc) (h : d ∈ kindFilter feedback_type docs) :
    d ∈ docs := by
  cases feedback_type with
  | none => exact h
  | some ft =>
    unfold kindFilter at h
    dsimp only at h
    by_cases hft : ft ≠ ""
    · rw [if_pos hft] at h
      exact (List.mem_filter.mp h).1
    · rw [if_neg hft] at h
      exact h

theorem mem_kindFilter_kind (t : String) (docs : List Doc) (d : Doc)
    (ht : t ≠ "") (h : d ∈ kindFilter (some t) docs) :
    d.metadata.feedback_type = some t := by
  unfold kindFilter at h
  dsimp only at h
  rw [if_pos ht] at h
  simpa using (List.mem_filter.mp h).2

/-- C1: for every profile with a feedback index, every query text, every
optional feedback kind and every `k`, `get_relevant_feedback` asks the
nearest-neighbor search for `2k` candidates, filters them to the given
kind when one is given (Python truthiness: a non-`None`, non-empty kind),
re-sorts by entry timestamp descending and truncates to at most `k`
records: the result (1) has length at most `k`, (2) consists of records
drawn from the candidates, which carry the requested kind whenever a kind
filter was given, (3) is sorted by timestamp descending — an entry with a
larger timestamp never appears after one with a smaller timestamp — and
(4) depends on the search only through its answer at `(queryText, 2k)`. -/
theorem getRelevantFeedback_spec (stores : String → Option SearchFn)
    (search : SearchFn) (profile_name context : String)
    (feedback_type : Option String) (k : Nat) (docs : List Doc)
    (hstore : stores profile_name = some search)
    (hsearch : search context (k * 2) = Except.ok docs) :
    (get_relevant_feedback stores profile_name context feedback_type
      k).length ≤ k ∧
    (∀ x ∈ get_relevant_feedback stores profile_name context feedback_type k,
        (∃ d ∈ docs, d.page_content = x.content ∧ d.metadata = x.metadata) ∧
        ∀ t : String, feedback_type = some t → t ≠ "" →
          x.metadata.feedback_type = some t) ∧
    List.Pairwise (fun a b : RetRecord =>
        ¬ (a.metadata.timestamp.getD "1970-01-01T00:00:00" <
           b.metadata.timestamp.getD "1970-01-01T00:00:00"))
      (get_relevant_feedback stores profile_name context feedback_type k) ∧
    (∀ (search2 : SearchFn) (stores2 : String → Option SearchFn),
        search2 context (k * 2) = Except.ok docs →
        stores2 profile_name = some search2 →
        get_relevant_feedback stores2 profile_name context feedback_type k =
          get_relevant_feedback stores profile_name context feedback_type
            k) := by
  have heq := get_relevant_feedback_eq stores search profile_name context
    feedback_type k docs hstore hsearch
  refine ⟨?_, ?_, ?_, ?_⟩
  · rw [heq]
    simp only [List.length_map, List.length_take]
    exact min_le_left _ _
  · rw [heq]
    intro x hx
    simp only [List.mem_map] at hx
    obtain ⟨d, hd, rfl⟩ := hx
    obtain ⟨p, hp, rfl⟩ := hd
    have hpp : p ∈ (kindFilter feedback_type docs).map
        (fun d => (d, tsOf d)) :=
      (mem_sortDesc p _).mp (List.take_subset _ _ hp)
    simp only [List.mem_map] at hpp
    obtain ⟨d0, hd0, rfl⟩ := hpp
    refine ⟨⟨d0, mem_kindFilter_subset feedback_type docs d0 hd0,
      rfl, rfl⟩, ?_⟩
    intro t hsome hne
    subst hsome
    exact mem_kindFilter_kind t docs d0 hne hd0
  · rw [heq, List.map_map]
    rw [List.pairwise_map]
    have h1 : (List.take k (sortDesc ((kindFilter feedback_type docs).map
        (fun d => (d, tsOf d))))).Pairwise keyGE :=
      (pairwise_sortDesc _).sublist (List.take_sublist _ _)
    refine h1.imp_of_mem ?_
    intro a b ha hb hab
    have ha' : a ∈ (kindFilter feedback_type docs).map
        (fun d => (d, tsOf d)) :=
      (mem_sortDesc a _).mp (List.take_subset _ _ ha)
    have hb' : b ∈ (kindFilter feedback_type docs).map
        (fun d => (d, tsOf d)) :=
      (mem_sortDesc b _).mp (List.take_subset _ _ hb)
    simp only [List.mem_map] at ha' hb'
    obtain ⟨da, _, rfl⟩ := ha'
    obtain ⟨db, _, rfl⟩ := hb'
    exact hab
  · intro search2 stores2 hs2 hst2
    rw [get_relevant_feedback_eq stores2 search2 profile_name context
      feedback_type k docs hst2 hs2, heq]

/-- Witness for C1 at a concrete store: three candidates and `k = 1`,
applied on the no-kind-filter path (`feedback_type = none`). -/
theorem getRelevantFeedback_spec_witness :
    (get_relevant_feedback
      (fun _ => some (fun _ _ => Except.ok
        [⟨"Feedback: good hook", ⟨some "p", some "positive", some "2024-01-01T00:00:00"⟩⟩,
         ⟨"Feedback: too long", ⟨some "p", some "negative", some "2024-05-01T00:00:00"⟩⟩,
         ⟨"Feedback: great tone", ⟨some "p", some "positive", some "2024-03-01T00:00:00"⟩⟩]))
      "p" "query" none 1).length ≤ 1 :=
  (getRelevantFeedback_spec
    (fun _ => some (fun _ _ => Except.ok
        [⟨"Feedback: good hook", ⟨some "p", some "positive", some "2024-01-01T00:00:00"⟩⟩,
         ⟨"Feedback: too long", ⟨some "p", some "negative", some "2024-05-01T00:00:00"⟩⟩,
         ⟨"Feedback: great tone", ⟨some "p", some "positive", some "2024-03-01T00:00:00"⟩⟩]))
    (fun _ _ => Except.ok
        [⟨"Feedback: good hook", ⟨some "p", some "positive", some "2024-01-01T00:00:00"⟩⟩,
         ⟨"Feedback: too long", ⟨some "p", some "negative", some "2024-05-01T00:00:00"⟩⟩,
         ⟨"Feedback: great tone", ⟨some "p", some "positive", some "2024-03-01T00:00:00"⟩⟩])
    "p" "query" none 1 _ rfl rfl).1

/-- C6: a profile with no feedback vector index (in particular one with zero
stored feedback) yields the empty list from `get_relevant_feedback`, for
every query text, kind filter and `k`; the model is a total function, so no
error can be raised. -/
theorem getRelevantFeedback_no_index (stores : String → Option SearchFn)
    (profile_name context : String) (feedback_type : Option String) (k : Nat)
    (h : stores profile_name = none) :
    get_relevant_feedback stores profile_name context feedback_type k = [] := by
  unfold get_relevant_feedback
  rw [h]

/-- Witness for C6 at a concrete store with no index for any profile. -/
theorem getRelevantFeedback_no_index_witness :
    get_relevant_feedback (fun _ => none) "p" "query" (some "positive") 3 = [] :=
  getRelevantFeedback_no_index (fun _ => none) "p" "query" (some "positive") 3 rfl

theorem foldl_store_feedback_log (entries acc : List FeedbackEntry) :
    entries.foldl store_feedback_log acc = acc ++ entries := by
  induction entries generalizing acc with
  | nil => simp
  | cons e rest ih => simp [store_feedback_log, ih]

theorem length_eq_three_kind_counts (l : List FeedbackEntry)
    (h : ∀ e ∈ l, e.feedback_type = "positive" ∨ e.feedback_type = "negative"
        ∨ e.feedback_type = "refinement") :
    l.length = (l.filter (fun f => f.feedback_type == "positive")).length
      + (l.filter (fun f => f.feedback_type == "negative")).length
      + (l.filter (fun f => f.feedback_type == "refinement")).length := by
  induction l with
  | nil => simp
  | cons e rest ih =>
    have he := h e (List.mem_cons_self e rest)
    have hrest := fun x hx => h x (List.mem_cons_of_mem _ hx)
    rcases he with h1 | h1 | h1 <;>
      simp [List.filter_cons, h1, ih hrest] <;> omega

/-- C5: for a feedback log built by any sequence of `store_feedback` log
appends whose entries all have kind `positive`, `negative` or `refinement`,
the summary satisfies `total == positive + negative + refinements`. -/
theorem feedbackSummary_total_eq_sum (entries : List FeedbackEntry)
    (h : ∀ e ∈ entries, e.feedback_type = "positive"
        ∨ e.feedback_type = "negative" ∨ e.feedback_type = "refinement") :
    (get_profile_feedback_summary
        (some (.ok (entries.foldl store_feedback_log [])))).total_feedback =
      (get_profile_feedback_summary
        (some (.ok (entries.foldl store_feedback_log [])))).positive
      + (get_profile_feedback_summary
        (some (.ok (entries.foldl store_feedback_log [])))).negative
      + (get_profile_feedback_summary
        (some (.ok (entries.foldl store_feedback_log [])))).refinements := by
  rw [foldl_store_feedback_log]
  simp only [List.nil_append, get_profile_feedback_summary]
  exact length_eq_three_kind_counts entries h

/-- Witness for C5: one entry of each of the three kinds. -/
theorem feedbackSummary_total_eq_sum_witness :
    (get_profile_feedback_summary (some (.ok
      ([⟨"2024-01-01T00:00:00", "p", "failed interview", "", "post1", "negative", "too harsh", "", ""⟩,
        ⟨"2024-01-02T00:00:00", "p", "got promoted", "", "post2", "positive", "great tone", "", ""⟩,
        ⟨"2024-01-03T00:00:00", "p", "launched project", "", "post3", "refinement", "shorten it", "", ""⟩].foldl
          store_feedback_log [])))).total_feedback =
    (get_profile_feedback_summary (some (.ok
      ([⟨"2024-01-01T00:00:00", "p", "failed interview", "", "post1", "negative", "too harsh", "", ""⟩,
        ⟨"2024-01-02T00:00:00", "p", "got promoted", "", "post2", "positive", "great tone", "", ""⟩,
        ⟨"2024-01-03T00:00:00", "p", "launched project", "", "post3", "refinement", "shorten it", "", ""⟩].foldl
          store_feedback_log [])))).positive
    + (get_profile_feedback_summary (some (.ok
      ([⟨"2024-01-01T00:00:00", "p", "failed interview", "", "post1", "negative", "too harsh", "", ""⟩,
        ⟨"2024-01-02T00:00:00", "p", "got promoted", "", "post2", "positive", "great tone", "", ""⟩,
        ⟨"2024-01-03T00:00:00", "p", "launched project", "", "post3", "refinement", "shorten it", "", ""⟩].foldl
          store_feedback_log [])))).negative
    + (get_profile_feedback_summary (some (.ok
      ([⟨"2024-01-01T00:00:00", "p", "failed interview", "", "post1", "negative", "too harsh", "", ""⟩,
        ⟨"2024-01-02T00:00:00", "p", "got promoted", "", "post2", "positive", "great tone", "", ""⟩,
        ⟨"2024-01-03T00:00:00", "p", "launched project", "", "post3", "refinement", "shorten it", "", ""⟩].foldl
          store_feedback_log [])))).refinements :=
  feedbackSummary_total_eq_sum _ (by decide)

/-- C7: for a profile whose feedback log file does not exist, the summary is
all-zero (total 0, zero per-kind counts, empty recent patterns); the model
is a total function, so no error can be raised. -/
theorem feedbackSummary_missing_log :
    get_profile_feedback_summary none =
      { total_feedback := 0, positive := 0, negative := 0, refinements := 0
        recent_patterns := [] } := rfl

/-- C2 counterexample: the log write succeeds and the vector-index update
raises (an embedding error), yet `store_feedback` reports success (`True`),
refuting the claim that such a partial application is surfaced as failure. -/
theorem storeFeedback_partial_failure_counterexample :
    store_feedback (Except.ok ()) (Except.error "embedding failure") = true :=
  rfl

/-- C2 amended: `store_feedback` reports failure exactly when the log
read/append/rewrite phase raises; an error confined to the vector-index
update step is caught inside `_update_feedback_vectors` (logged to console
only) and the call reports success, silently dropping the partial
application. -/
theorem storeFeedback_reports_log_phase_only :
    (∀ indexUpdate : Except String Unit,
        store_feedback (Except.ok ()) indexUpdate = true) ∧
    (∀ (e : String) (indexUpdate : Except String Unit),
        store_feedback (Except.error e) indexUpdate = false) := by
  constructor
  · intro indexUpdate
    cases indexUpdate <;> rfl
  · intro e indexUpdate
    rfl

/-- C8: every profile row reported by `GET /profiles` carries
`learningScore = positiveCount − negativeCount`, both counts taken from
that profile's feedback summary. -/
theorem listProfiles_learningScore (profiles : List String)
    (readFile : String → Option String)
    (getSummary : String → FeedbackSummary) (info : ProfileInfo)
    (h : info ∈ list_profiles profiles readFile getSummary) :
    info.learningScore = ((getSummary info.name).positive : Int)
      - ((getSummary info.name).negative : Int) := by
  simp only [list_profiles, List.mem_filterMap] at h
  obtain ⟨p, _, hmap⟩ := h
  rw [Option.map_eq_some'] at hmap
  obtain ⟨content, _, rfl⟩ := hmap
  rfl

/-- Witness for C8: one profile with a concrete summary. -/
theorem listProfiles_learningScore_witness :
    (ProfileInfo.mk "default" 1 5 2).learningScore =
      (((fun _ : String => FeedbackSummary.mk 5 3 1 1 []) "default").positive : Int)
      - (((fun _ : String => FeedbackSummary.mk 5 3 1 1 []) "default").negative : Int) :=
  listProfiles_learningScore ["default"] (fun _ => some "abc")
    (fun _ => FeedbackSummary.mk 5 3 1 1 [])
    (ProfileInfo.mk "default" 1 5 2) (by decide)

/-- C9: when the generation client raises inside `refine_post`, the
original post is returned unchanged, and `POST /refine` reports it as a
successful result rather than surfacing an error. -/
theorem refinePost_error_returns_original
    (llm : String → Except String String)
    (profile_name original_post feedback_text context e : String)
    (h : llm (renderRefinePrompt original_post feedback_text context)
      = .error e) :
    refine_post llm profile_name original_post feedback_text context
      = original_post ∧
    api_refine_post llm profile_name original_post feedback_text context
      = .ok original_post := by
  unfold api_refine_post refine_post
  rw [h]
  exact ⟨rfl, rfl⟩

/-- Witness for C9: a generation client that always raises. -/
theorem refinePost_error_returns_original_witness :
    refine_post (fun _ => .error "client down") "p" "my original post"
      "make it shorter" "topic" = "my original post" ∧
    api_refine_post (fun _ => .error "client down") "p" "my original post"
      "make it shorter" "topic" = .ok "my original post" :=
  refinePost_error_returns_original (fun _ => .error "client down") "p"
    "my original post" "make it shorter" "topic" "client down" rfl

/-- C4: the feedback-aware prompt assembler (1) consults the store only
through the three per-kind retrievals for the same context with `k = 2`
each, (2) assembles the prompt with one labeled section per kind with
non-empty results, concatenated in the fixed order positive, negative,
refinement, omitting empty sections, and (3) substitutes the fallback
placeholder `Unknown feedback` for an entry whose stored text has no
`Feedback:` label. -/
theorem createFeedbackAwarePrompt_spec :
    (∀ (g g' : GetRelevantFn)
        (profile context instruction style_examples : String),
      g profile context (some "positive") 2
          = g' profile context (some "positive") 2 →
      g profile context (some "negative") 2
          = g' profile context (some "negative") 2 →
      g profile context (some "refinement") 2
          = g' profile context (some "refinement") 2 →
      create_feedback_aware_prompt g profile context instruction
          style_examples
        = create_feedback_aware_prompt g' profile context instruction
          style_examples) ∧
    (∀ (g : GetRelevantFn)
        (profile context instruction style_examples : String),
      create_feedback_aware_prompt g profile context instruction
          style_examples =
        feedbackTemplateBefore
        ++ (if (g profile context (some "positive") 2).isEmpty
              && (g profile context (some "negative") 2).isEmpty
              && (g profile context (some "refinement") 2).isEmpty then ""
            else "\nBased on previous user feedback for similar content:\n"
              ++ (if (g profile context (some "positive") 2).isEmpty then ""
                  else "\n✅ POSITIVE PATTERNS TO FOLLOW:\n"
                    ++ renderFeedbackItems
                        (g profile context (some "positive") 2))
              ++ (if (g profile context (some "negative") 2).isEmpty then ""
                  else "\n❌ NEGATIVE PATTERNS TO AVOID:\n"
                    ++ renderFeedbackItems
                        (g profile context (some "negative") 2))
              ++ (if (g profile context (some "refinement") 2).isEmpty
                  then ""
                  else "\n🔄 REFINEMENT SUGGESTIONS TO CONSIDER:\n"
                    ++ renderRefinementItems
                        (g profile context (some "refinement") 2))
              ++ "\nIMPORTANT: Use the positive patterns, avoid the negative patterns, and consider the refinement suggestions when generating the post.\n")
        ++ feedbackTemplateAfter) ∧
    (∀ rec : RetRecord,
      (∀ line ∈ pySplit rec.content "\n",
        containsSub line "Feedback:" = false) →
      extractFeedbackText (pySplit rec.content "\n") = "Unknown feedback") := by
  refine ⟨?_, ?_, ?_⟩
  · intro g g' profile context instruction style_examples h1 h2 h3
    unfold create_feedback_aware_prompt
    rw [h1, h2, h3]
  · intro g profile context instruction style_examples
    rfl
  · intro rec h
    unfold extractFeedbackText
    have : (pySplit rec.content "\n").find?
        (fun line => containsSub line "Feedback:") = none := by
      rw [List.find?_eq_none]
      intro line hline
      simp [h line hline]
    rw [this]

/-- Witness for C4: applying the fallback clause to an entry whose stored
text has no `Feedback:` label, and the query-extensionality clause to a
concrete store. -/
theorem createFeedbackAwarePrompt_spec_witness :
    extractFeedbackText
      (pySplit (RetRecord.mk "no label in this text"
        ⟨none, none, none⟩).content "\n") = "Unknown feedback" :=
  createFeedbackAwarePrompt_spec.2.2
    (RetRecord.mk "no label in this text" ⟨none, none, none⟩) (by decide)

/-- C3 counterexample: the feedback-aware path fails (generation client
raises) and the fallback plain path returns whitespace only; the endpoint
answers success with an empty string — a silent empty-string success,
refuting the result guarantee as claimed. -/
theorem apiGenerate_empty_success_counterexample :
    api_generate (Except.ok ["sample text"]) (fun _ _ _ _ => [])
      (fun _ => Except.error "feedback model down")
      (fun _ => Except.ok "   ") "p" "topic" "" = Except.ok "" := by
  rfl

/-- C3 amended: (1) whenever the feedback-aware attempt fails,
`generate_post_with_feedback` retries with the plain-template
`generate_post` on the same search results, context and instruction;
(2) `POST /generate` answers either generated text or an explicit
combined error naming both failures; (3) text produced by the
feedback-aware attempt itself is never empty — but the fallback plain
path may return an empty string when the generation client returns only
whitespace, so an empty-string success is possible through the
fallback. -/
theorem apiGenerate_fallback_and_combined_error :
    (∀ (searchDocs : Except String (List String)) (getRelevant : GetRelevantFn)
        (fbLLM basicLLM : String → Except String String)
        (profile context instruction e : String),
      feedbackAttempt searchDocs getRelevant fbLLM profile context
          instruction = .error e →
      generate_post_with_feedback searchDocs getRelevant fbLLM basicLLM
          profile context instruction
        = generate_post searchDocs basicLLM context instruction) ∧
    (∀ (searchDocs : Except String (List String)) (getRelevant : GetRelevantFn)
        (fbLLM basicLLM : String → Except String String)
        (profile context instruction : String),
      (∃ t, api_generate searchDocs getRelevant fbLLM basicLLM profile
          context instruction = .ok t) ∨
      (∃ fe be,
        generate_post_with_feedback searchDocs getRelevant fbLLM basicLLM
            profile context instruction = .error fe ∧
        generate_post searchDocs basicLLM context instruction = .error be ∧
        api_generate searchDocs getRelevant fbLLM basicLLM profile context
            instruction
          = .error ("Generation failed - Feedback error: " ++ fe
              ++ ", Basic error: " ++ be))) ∧
    (∀ (searchDocs : Except String (List String)) (getRelevant : GetRelevantFn)
        (fbLLM : String → Except String String)
        (profile context instruction t : String),
      feedbackAttempt searchDocs getRelevant fbLLM profile context
          instruction = .ok t → t ≠ "") := by
  refine ⟨?_, ?_, ?_⟩
  · intro searchDocs getRelevant fbLLM basicLLM profile context instruction
      e h
    unfold generate_post_with_feedback
    rw [h]
  · intro searchDocs getRelevant fbLLM basicLLM profile context instruction
    unfold api_generate
    cases hg : generate_post_with_feedback searchDocs getRelevant fbLLM
        basicLLM profile context instruction with
    | ok post => exact Or.inl ⟨post, rfl⟩
    | error fe =>
      cases hb : generate_post searchDocs basicLLM context instruction with
      | ok post => exact Or.inl ⟨post, rfl⟩
      | error be => exact Or.inr ⟨fe, be, rfl, rfl, rfl⟩
  · intro searchDocs getRelevant fbLLM profile context instruction t h
    unfold feedbackAttempt at h
    cases searchDocs with
    | error e => simp at h
    | ok docs =>
      simp only at h
      by_cases hemp : ((docs.map pyStrip).filter
          (fun s => s ≠ "")).isEmpty
      · rw [if_pos hemp] at h
        simp at h
      · rw [if_neg hemp] at h
        cases hgen : generate_with_feedback getRelevant fbLLM profile
            context instruction (formatExamples ((docs.map pyStrip).filter
              (fun s => s ≠ ""))) with
        | none => rw [hgen] at h; simp at h
        | some result =>
          rw [hgen] at h
          dsimp only at h
          by_cases hres : result = ""
          · rw [if_pos hres] at h; simp at h
          · rw [if_neg hres] at h
            cases h
            exact hres

/-- Witness for C3 (amended): concrete instantiation of the fallback
clause — the feedback client raises, so the result is exactly that of the
plain path. -/
theorem apiGenerate_fallback_witness :
    generate_post_with_feedback (Except.ok ["sample text"])
      (fun _ _ _ _ => []) (fun _ => Except.error "feedback model down")
      (fun _ => Except.ok "generated post") "p" "topic" ""
    = generate_post (Except.ok ["sample text"])
      (fun _ => Except.ok "generated post") "topic" "" :=
  apiGenerate_fallback_and_combined_error.1 (Except.ok ["sample text"])
    (fun _ _ _ _ => []) (fun _ => Except.error "feedback model down")
    (fun _ => Except.ok "generated post") "p" "topic" ""
    "Failed to generate post" rfl

theorem filter_length_eq_all {α : Type} (p : α → Bool) (l : List α)
    (h : (l.filter p).length = l.length) : ∀ a ∈ l, p a = true := by
  induction l with
  | nil => intro a ha; cases ha
  | cons x xs ih =>
    intro a ha
    by_cases hx : p x = true
    · rw [List.filter_cons_of_pos hx, List.length_cons, List.length_cons] at h
      rcases List.mem_cons.mp ha with rfl | ha'
      · exact hx
      · exact ih (by omega) a ha'
    · rw [List.filter_cons_of_neg hx, List.length_cons] at h
      have := List.length_filter_le p xs
      omega

theorem sepSplit_none (seps : List String) (content : String)
    (h : ∀ sep ∈ seps, containsSub content sep = false) :
    sepSplit seps content = none := by
  induction seps with
  | nil => rfl
  | cons sep rest ih =>
    have hsep := h sep (List.mem_cons_self sep rest)
    unfold sepSplit
    rw [hsep]
    simp only [Bool.false_eq_true, if_false]
    exact ih (fun s hs => h s (List.mem_cons_of_mem _ hs))

theorem enum_map_eq_range_map {α β : Type} (f : Nat → α → β) (d : α)
    (l : List α) :
    l.enum.map (fun p => f p.1 p.2)
      = (List.range l.length).map (fun i => f i (l.getD i d)) := by
  apply List.ext_getElem
  · simp
  · intro i h1 h2
    simp only [List.length_map, List.enum_length] at h1
    rw [List.getElem_map, List.getElem_map, List.getElem_enum,
      List.getElem_range, List.getD_eq_getElem l d h1]

/-- `wrapSamples` numbers its blocks consecutively from 1: the block at
0-based position `i` carries the marker number `i + 1`. -/
theorem wrapSamples_range (sample_list : List String) :
    wrapSamples sample_list
      = joinSep "\n\n" ((List.range sample_list.length).map
          (fun i => wrapSample (i + 1) (sample_list.getD i ""))) :=
  congrArg (joinSep "\n\n")
    (enum_map_eq_range_map (fun i s => wrapSample (i + 1) s) "" sample_list)

theorem wrapSamples_singleton (c : String) :
    wrapSamples [c]
      = "--- SAMPLE 1 START ---\n" ++ c ++ "\n--- SAMPLE 1 END ---" := by
  obtain ⟨l⟩ := c
  apply String.ext
  show ("--- SAMPLE " ++ toString (0 + 1) ++ " START ---\n" ++ String.mk l
    ++ "\n--- SAMPLE " ++ toString (0 + 1) ++ " END ---").data = _
  rw [show toString (0 + 1) = "1" from rfl]
  simp only [String.data_append, List.append_assoc]
  rfl

theorem sampleListOf_single (samples : String)
    (hsep : ∀ sep ∈ explicit_separators,
      containsSub (pyStrip samples) sep = false)
    (hgap : ¬ (1 < (gapParts (pyStrip samples)).length ∧
        ∀ p ∈ gapParts (pyStrip samples), 200 ≤ p.length)) :
    sampleListOf samples = [pyStrip samples] := by
  unfold sampleListOf
  dsimp only
  rw [sepSplit_none explicit_separators (pyStrip samples) hsep]
  dsimp only
  by_cases hlen : (gapParts (pyStrip samples)).length > 1
  · rw [if_pos hlen]
    have hnall : ¬ ∀ p ∈ gapParts (pyStrip samples), 200 ≤ p.length :=
      fun hall => hgap ⟨hlen, hall⟩
    have hne2 : ((gapParts (pyStrip samples)).filter
        (fun p => 200 ≤ p.length)).length
        ≠ (gapParts (pyStrip samples)).length := by
      intro heq
      apply hnall
      intro p hp
      have := filter_length_eq_all (fun p => decide (200 ≤ p.length)) _
        heq p hp
      simpa using this
    rw [if_neg (by simpa using hne2)]
  · rw [if_neg hlen]

/-- C10: a non-empty `samples` string containing none of the six explicit
separators and not split by the five-newline gap heuristic (two or more
parts, each 200+ chars) is wrapped as exactly one sample between
`--- SAMPLE 1 START ---` and `--- SAMPLE 1 END ---`; and every output of
`format_samples_with_markers` is either the stripped input (empty sample
list) or a join of blocks numbered consecutively from 1. -/
theorem formatSamples_spec (samples : String)
    (hne : samples ≠ "")
    (hsep : ∀ sep ∈ explicit_separators,
      containsSub (pyStrip samples) sep = false)
    (hgap : ¬ (1 < (gapParts (pyStrip samples)).length ∧
        ∀ p ∈ gapParts (pyStrip samples), 200 ≤ p.length)) :
    format_samples_with_markers samples
      = "--- SAMPLE 1 START ---\n" ++ pyStrip samples
        ++ "\n--- SAMPLE 1 END ---" ∧
    ∀ s : String, format_samples_with_markers s = pyStrip s ∨
      ∃ parts : List String, parts ≠ [] ∧
        format_samples_with_markers s
          = joinSep "\n\n" ((List.range parts.length).map
              (fun i => wrapSample (i + 1) (parts.getD i ""))) := by
  constructor
  · unfold format_samples_with_markers
    rw [sampleListOf_single samples hsep hgap]
    simp only [List.isEmpty_cons, Bool.false_eq_true, if_false]
    exact wrapSamples_singleton (pyStrip samples)
  · intro s
    unfold format_samples_with_markers
    by_cases h : (sampleListOf s).isEmpty
    · left
      rw [if_pos h]
    · right
      refine ⟨sampleListOf s, ?_, ?_⟩
      · simpa [List.isEmpty_iff] using h
      · rw [if_neg h, wrapSamples_range]

/-- Witness for C10: the plain string `hello` is wrapped as a single
sample. -/
theorem formatSamples_spec_witness :
    format_samples_with_markers "hello"
      = "--- SAMPLE 1 START ---\n" ++ pyStrip "hello"
        ++ "\n--- SAMPLE 1 END ---" :=
  (formatSamples_spec "hello" (by decide) (by decide) (by decide)).1

end Ghostwriter
